import Mathlib

/-
Verification of the GizmoMFV particle-field export/import layer and the
hydrodynamic property derivation (files src/hydro/GizmoMFV/hydro_io.h and
src/hydro_properties.c).

Machine floating-point values (float/double) are embedded as exact rationals;
integer simulation times (integertime_t) as ℤ, with C integer division
rendered as Int.tdiv (truncation toward zero, as in C99).

Out-of-scope collaborators (the kick-factor provider, the time-bin boundary
functions, the drift-velocity operator, the entropy accessor) are bundled in
an explicit record of functions, so every converter is a pure function of
that record plus the engine/particle state, exactly mirroring the C call
graph.
-/

set_option linter.unusedVariables false

namespace SwiftSim

/-- A triple of rational components, standing for a C array of three
floats/doubles (coordinates, velocities, momenta, box dimensions). -/
structure V3 where
  c0 : ℚ
  c1 : ℚ
  c2 : ℚ
deriving DecidableEq

/-- The conserved-quantity bundle of a GizmoMFV particle:
`conserved.mass`, `conserved.momentum[3]`, `conserved.energy`. -/
structure conserved_quantities where
  mass : ℚ
  momentum : V3
  energy : ℚ
deriving DecidableEq

/-- The primitive-quantity bundle: `primitives.rho`, `primitives.P`. -/
structure primitive_quantities where
  rho : ℚ
  P : ℚ
deriving DecidableEq

/-- The particle record (`struct part`), restricted to the attributes the
i/o layer touches.  `gpart` models the optional back-reference to a paired
gravity particle: modelled as the paired particle's comoving potential
(`gravity_get_comoving_potential(p->gpart)`), or `none` when the pointer is
NULL. -/
structure part where
  x : V3
  v : V3
  h : ℚ
  conserved : conserved_quantities
  primitives : primitive_quantities
  id : ℚ
  a_hydro : V3
  time_bin : ℤ
  gpart : Option ℚ
deriving DecidableEq

/-- The extended particle state (`struct xpart`); only consumed through the
out-of-scope drift-velocity operator. -/
structure xpart where
  v_full : V3
deriving DecidableEq

/-- The cosmology state visible to the converters: the scale factor `a` and
its stored derived power `a2_inv` (the square of the inverse scale factor). -/
structure cosmology where
  a : ℚ
  a2_inv : ℚ
deriving DecidableEq

/-- The space record: periodicity flag and box dimensions (`e->s`). -/
structure space where
  periodic : Bool
  dim : V3
deriving DecidableEq

/-- The engine fields read by the converters: `e->s`, the cosmology policy
bit of `e->policy`, `e->cosmology`, `e->ti_current`, `e->time_base`. -/
structure engine where
  s : space
  policy_cosmology : Bool
  cosmology : cosmology
  ti_current : ℤ
  time_base : ℚ
deriving DecidableEq

/-- Modelled from the spec: the out-of-scope collaborators called by the
converters but not present under src/ — the time-bin boundary functions
`get_integer_time_begin`/`get_integer_time_end`, the cosmology kick-factor
provider (gravity and hydrodynamic kinds), the drift-velocity operator
`hydro_get_drifted_velocities`, and the entropy accessor
`hydro_get_comoving_entropy`.  They are kept fully abstract. -/
structure ExternalOps where
  get_integer_time_begin : ℤ → ℤ → ℤ
  get_integer_time_end : ℤ → ℤ → ℤ
  cosmology_get_grav_kick_factor : cosmology → ℤ → ℤ → ℚ
  cosmology_get_hydro_kick_factor : cosmology → ℤ → ℤ → ℚ
  hydro_get_drifted_velocities : part → xpart → ℚ → ℚ → V3
  hydro_get_comoving_entropy : part → ℚ

/-- Modelled from the spec: `hydro_get_comoving_internal_energy` is the
out-of-scope equation-of-state accessor; in mode B (no GIZMO_TOTAL_ENERGY)
the conserved energy field stores the internal energy only, which the
accessor extracts directly. -/
def hydro_get_comoving_internal_energy (p : part) : ℚ :=
  p.conserved.energy

/-- `convert_u` from hydro_io.h: the internal-energy converter. -/
def convert_u (e : engine) (p : part) (xp : xpart) : ℚ :=
  hydro_get_comoving_internal_energy p

/-- `convert_A` from hydro_io.h: the entropic-function converter. -/
def convert_A (E : ExternalOps) (e : engine) (p : part) (xp : xpart) : ℚ :=
  E.hydro_get_comoving_entropy p

/-- `convert_Etot` from hydro_io.h.  The boolean argument renders the
build-time `#ifdef GIZMO_TOTAL_ENERGY` toggle: `true` is mode A (the energy
field already stores the total), `false` is mode B (internal energy only,
kinetic part added from the conserved momentum; the C literal `0.5f` is
exactly 1/2). -/
def convert_Etot (gizmo_total_energy : Bool) (e : engine) (p : part)
    (xp : xpart) : ℚ :=
  if gizmo_total_energy then
    p.conserved.energy
  else
    let momentum2 :=
      p.conserved.momentum.c0 * p.conserved.momentum.c0 +
        p.conserved.momentum.c1 * p.conserved.momentum.c1 +
        p.conserved.momentum.c2 * p.conserved.momentum.c2
    p.conserved.energy + 1 / 2 * momentum2 / p.conserved.mass

/-- Modelled from the spec: `box_wrap` lives outside src/; per the spec the
position converter "wraps each coordinate into [0, dim) via modular
reduction", so the wrap is the exact modular reduction of `x` into
`[lo, hi)`. -/
def box_wrap (x lo hi : ℚ) : ℚ :=
  lo + (hi - lo) * Int.fract ((x - lo) / (hi - lo))

/-- `convert_part_pos` from hydro_io.h: wraps into the box when the space is
periodic, passes the raw stored coordinates through otherwise. -/
def convert_part_pos (e : engine) (p : part) (xp : xpart) : V3 :=
  if e.s.periodic then
    ⟨box_wrap p.x.c0 0 e.s.dim.c0,
     box_wrap p.x.c1 0 e.s.dim.c1,
     box_wrap p.x.c2 0 e.s.dim.c2⟩
  else
    p.x

/-- `convert_part_vel` from hydro_io.h.  With cosmology the two kick deltas
are differences of kick factors over `[ti_beg, ti_current)` and
`[ti_beg, (ti_beg+ti_end)/2)`; without cosmology both are the elapsed
integer time from the midpoint times `time_base`.  The midpoint uses C
integer division (`Int.tdiv`).  The drift-velocity operator receives the
hydro delta first, then the gravity delta, and each output component is
multiplied by `a2_inv`. -/
def convert_part_vel (E : ExternalOps) (e : engine) (p : part)
    (xp : xpart) : V3 :=
  let with_cosmology := e.policy_cosmology
  let cosmo := e.cosmology
  let ti_current := e.ti_current
  let time_base := e.time_base
  let ti_beg := E.get_integer_time_begin ti_current p.time_bin
  let ti_end := E.get_integer_time_end ti_current p.time_bin
  let dt_kick_grav : ℚ :=
    if with_cosmology then
      E.cosmology_get_grav_kick_factor cosmo ti_beg ti_current -
        E.cosmology_get_grav_kick_factor cosmo ti_beg
          (Int.tdiv (ti_beg + ti_end) 2)
    else
      ((ti_current - Int.tdiv (ti_beg + ti_end) 2 : ℤ) : ℚ) * time_base
  let dt_kick_hydro : ℚ :=
    if with_cosmology then
      E.cosmology_get_hydro_kick_factor cosmo ti_beg ti_current -
        E.cosmology_get_hydro_kick_factor cosmo ti_beg
          (Int.tdiv (ti_beg + ti_end) 2)
    else
      ((ti_current - Int.tdiv (ti_beg + ti_end) 2 : ℤ) : ℚ) * time_base
  let ret := E.hydro_get_drifted_velocities p xp dt_kick_hydro dt_kick_grav
  ⟨ret.c0 * cosmo.a2_inv, ret.c1 * cosmo.a2_inv, ret.c2 * cosmo.a2_inv⟩

/-- `convert_part_potential` from hydro_io.h: 0 when the particle has no
paired gravity particle, else the paired particle's comoving potential. -/
def convert_part_potential (e : engine) (p : part) (xp : xpart) : ℚ :=
  match p.gpart with
  | some pot => pot
  | none => 0

/-- The element datatypes declared by the field descriptors. -/
inductive io_data_type
  | FLOAT
  | DOUBLE
  | ULONGLONG
deriving DecidableEq

/-- The read-direction requiredness tag of a field descriptor. -/
inductive io_importance
  | COMPULSORY
  | OPTIONAL
deriving DecidableEq

/-- The unit-dimension tags carried by the field descriptors. -/
inductive unit_conversion
  | UNIT_CONV_LENGTH
  | UNIT_CONV_SPEED
  | UNIT_CONV_MASS
  | UNIT_CONV_ENERGY_PER_UNIT_MASS
  | UNIT_CONV_NO_UNITS
  | UNIT_CONV_ACCELERATION
  | UNIT_CONV_DENSITY
  | UNIT_CONV_ENTROPY
  | UNIT_CONV_PRESSURE
  | UNIT_CONV_ENERGY
  | UNIT_CONV_POTENTIAL
deriving DecidableEq

/-- A read-direction field descriptor (`io_make_input_field`): external
name, datatype, multiplicity, requiredness, unit tag, and the destination
attribute rendered as a setter on the particle record. -/
structure input_field where
  name : String
  type : io_data_type
  dimension : ℕ
  importance : io_importance
  units : unit_conversion
  apply : List ℚ → part → part

/-- `io_make_input_field` from io_properties.h: packs one read-direction
descriptor. -/
def io_make_input_field (name : String) (type : io_data_type)
    (dimension : ℕ) (importance : io_importance) (units : unit_conversion)
    (apply : List ℚ → part → part) : input_field :=
  ⟨name, type, dimension, importance, units, apply⟩

/-- Helper rendering the C memory copy of a 3-vector field: exactly three
external values overwrite the attribute. -/
def V3.setFrom (vals : List ℚ) (old : V3) : V3 :=
  match vals with
  | [a, b, c] => ⟨a, b, c⟩
  | _ => old

/-- Helper rendering the C memory copy of a scalar field. -/
def scalarFrom (vals : List ℚ) (old : ℚ) : ℚ :=
  vals.headD old

/-- `hydro_read_particles` from hydro_io.h: the 8 read-direction field
descriptors, in source order (`*num_fields = 8`). -/
def hydro_read_particles : List input_field :=
  [io_make_input_field ("Coordinates") .DOUBLE 3 .COMPULSORY
      .UNIT_CONV_LENGTH (fun vals p => { p with x := V3.setFrom vals p.x }),
   io_make_input_field ("Velocities") .FLOAT 3 .COMPULSORY
      .UNIT_CONV_SPEED (fun vals p => { p with v := V3.setFrom vals p.v }),
   io_make_input_field ("Masses") .FLOAT 1 .COMPULSORY
      .UNIT_CONV_MASS (fun vals p =>
        { p with conserved :=
            { p.conserved with mass := scalarFrom vals p.conserved.mass } }),
   io_make_input_field ("SmoothingLength") .FLOAT 1 .COMPULSORY
      .UNIT_CONV_LENGTH (fun vals p => { p with h := scalarFrom vals p.h }),
   io_make_input_field ("InternalEnergy") .FLOAT 1 .COMPULSORY
      .UNIT_CONV_ENERGY_PER_UNIT_MASS (fun vals p =>
        { p with conserved :=
            { p.conserved with energy := scalarFrom vals p.conserved.energy } }),
   io_make_input_field ("ParticleIDs") .ULONGLONG 1 .COMPULSORY
      .UNIT_CONV_NO_UNITS (fun vals p => { p with id := scalarFrom vals p.id }),
   io_make_input_field ("Accelerations") .FLOAT 3 .OPTIONAL
      .UNIT_CONV_ACCELERATION (fun vals p =>
        { p with a_hydro := V3.setFrom vals p.a_hydro }),
   io_make_input_field ("Density") .FLOAT 1 .OPTIONAL
      .UNIT_CONV_DENSITY (fun vals p =>
        { p with primitives :=
            { p.primitives with rho := scalarFrom vals p.primitives.rho } })]

/-- Modelled from the spec: the structured reader (out of scope) walks the
read-direction registry against a field-by-field typed array source; a
required field absent from the source aborts the load with
MissingRequiredFieldError, an absent optional field is skipped, and present
values are taken back to internal units by dividing out the
internal-to-external unit-conversion factor of the field's tag. -/
def io_read (uf : unit_conversion → ℚ) (source : String → Option (List ℚ)) :
    List input_field → part → Except String part
  | [], p => .ok p
  | f :: rest, p =>
    match source f.name with
    | some vals =>
        io_read uf source rest (f.apply (vals.map (fun v => v / uf f.units)) p)
    | none =>
        match f.importance with
        | .COMPULSORY => .error ("MissingRequiredFieldError")
        | .OPTIONAL => io_read uf source rest p

/-- A write-direction field descriptor: external name, datatype,
multiplicity, unit tag, and the produced values (a direct memory copy or a
converter invocation). -/
structure output_field where
  name : String
  type : io_data_type
  dimension : ℕ
  units : unit_conversion
  compute : ExternalOps → engine → part → xpart → List ℚ

/-- `io_make_output_field` from io_properties.h: a direct-copy
write-direction descriptor. -/
def io_make_output_field (name : String) (type : io_data_type)
    (dimension : ℕ) (units : unit_conversion) (get : part → List ℚ) :
    output_field :=
  ⟨name, type, dimension, units, fun E e p xp => get p⟩

/-- `io_make_output_field_convert_part` from io_properties.h: a
converter-backed write-direction descriptor. -/
def io_make_output_field_convert_part (name : String) (type : io_data_type)
    (dimension : ℕ) (units : unit_conversion)
    (conv : ExternalOps → engine → part → xpart → List ℚ) : output_field :=
  ⟨name, type, dimension, units, conv⟩

/-- `hydro_write_particles` from hydro_io.h: the 11 write-direction field
descriptors, in source order (`*num_fields = 11`).  The boolean renders the
GIZMO_TOTAL_ENERGY build toggle consumed by `convert_Etot`. -/
def hydro_write_particles (gizmo_total_energy : Bool) : List output_field :=
  [io_make_output_field_convert_part ("Coordinates") .DOUBLE 3
      .UNIT_CONV_LENGTH (fun E e p xp =>
        let r := convert_part_pos e p xp
        [r.c0, r.c1, r.c2]),
   io_make_output_field_convert_part ("Velocities") .FLOAT 3
      .UNIT_CONV_SPEED (fun E e p xp =>
        let r := convert_part_vel E e p xp
        [r.c0, r.c1, r.c2]),
   io_make_output_field ("Masses") .FLOAT 1 .UNIT_CONV_MASS
      (fun p => [p.conserved.mass]),
   io_make_output_field ("SmoothingLength") .FLOAT 1 .UNIT_CONV_LENGTH
      (fun p => [p.h]),
   io_make_output_field_convert_part ("InternalEnergy") .FLOAT 1
      .UNIT_CONV_ENERGY_PER_UNIT_MASS (fun E e p xp => [convert_u e p xp]),
   io_make_output_field ("ParticleIDs") .ULONGLONG 1 .UNIT_CONV_NO_UNITS
      (fun p => [p.id]),
   io_make_output_field ("Density") .FLOAT 1 .UNIT_CONV_DENSITY
      (fun p => [p.primitives.rho]),
   io_make_output_field_convert_part ("Entropy") .FLOAT 1 .UNIT_CONV_ENTROPY
      (fun E e p xp => [convert_A E e p xp]),
   io_make_output_field ("Pressure") .FLOAT 1 .UNIT_CONV_PRESSURE
      (fun p => [p.primitives.P]),
   io_make_output_field_convert_part ("TotEnergy") .FLOAT 1 .UNIT_CONV_ENERGY
      (fun E e p xp => [convert_Etot gizmo_total_energy e p xp]),
   io_make_output_field_convert_part ("Potential") .FLOAT 1
      .UNIT_CONV_POTENTIAL (fun E e p xp => [convert_part_potential e p xp])]

/-- Modelled from the spec: the structured writer (out of scope) walks the
write-direction registry, evaluating each descriptor on the particle and
applying the internal-to-external unit-conversion factor; the result is the
external snapshot viewed as a name-indexed typed array source. -/
def io_write (L : List output_field) (E : ExternalOps) (uf : unit_conversion → ℚ)
    (e : engine) (p : part) (xp : xpart) : String → Option (List ℚ) :=
  fun n =>
    (L.find? (fun f => f.name == n)).map
      (fun f => (f.compute E e p xp).map (fun v => v * uf f.units))

/-- Modelled from the spec: the parameter parser (out of scope) is a
key→typed-value lookup; a required parameter absent from it is a
MissingRequiredParameterError, an absent optional one takes the supplied
default. -/
structure swift_params where
  getF : String → Option ℚ
  getI : String → Option ℤ

/-- `parser_get_param_float`: required lookup; `none` stands for the fatal
MissingRequiredParameterError abort. -/
def parser_get_param_float (params : swift_params) (name : String) :
    Option ℚ :=
  params.getF name

/-- `parser_get_opt_param_float`: optional lookup with default. -/
def parser_get_opt_param_float (params : swift_params) (name : String)
    (d : ℚ) : ℚ :=
  (params.getF name).getD d

/-- `parser_get_opt_param_int`: optional lookup with default. -/
def parser_get_opt_param_int (params : swift_params) (name : String)
    (d : ℤ) : ℤ :=
  (params.getI name).getD d

/-- The external mathematical constants and libm routines used by
hydro_properties.c, kept abstract: `M_PI`, the kernel constant
`kernel_gamma3`, `logf`, `expf`, `powf`, the adiabatic index `hydro_gamma`,
and the scheme/kernel name strings. -/
structure MathExt where
  M_PI : ℚ
  kernel_gamma3 : ℚ
  logf : ℚ → ℚ
  expf : ℚ → ℚ
  powf : ℚ → ℚ → ℚ
  hydro_gamma : ℚ
  SPH_IMPLEMENTATION : String
  kernel_name : String

/-- `hydro_props_default_max_iterations` from hydro_properties.c. -/
def hydro_props_default_max_iterations : ℤ := 30

/-- `hydro_props_default_volume_change` from hydro_properties.c. -/
def hydro_props_default_volume_change : ℚ := 2

/-- `struct hydro_props`: the derived hydrodynamic configuration. -/
structure hydro_props where
  eta_neighbours : ℚ
  target_neighbours : ℚ
  delta_neighbours : ℚ
  max_smoothing_iterations : ℤ
  CFL_condition : ℚ
  log_max_h_change : ℚ
deriving DecidableEq

/-- `hydro_props_init` from hydro_properties.c.  `none` stands for the fatal
abort when a required parameter is missing.  The C exponent literal
`0.33333333333f` rounds to the binary32 value nearest 1/3 (the same float
as 1/3 itself), so the exact embedding uses 1/3. -/
def hydro_props_init (X : MathExt) (params : swift_params) :
    Option hydro_props :=
  match parser_get_param_float params ("SPH:resolution_eta"),
        parser_get_param_float params ("SPH:delta_neighbours"),
        parser_get_param_float params ("SPH:CFL_condition") with
  | some eta_neighbours, some delta_neighbours, some CFL_condition =>
      let eta3 := eta_neighbours * eta_neighbours * eta_neighbours
      let max_volume_change :=
        parser_get_opt_param_float params ("SPH:max_volume_change")
          hydro_props_default_volume_change
      some
        { eta_neighbours := eta_neighbours
          target_neighbours := 4 * X.M_PI * X.kernel_gamma3 * eta3 / 3
          delta_neighbours := delta_neighbours
          max_smoothing_iterations :=
            parser_get_opt_param_int params ("SPH:max_ghost_iterations")
              hydro_props_default_max_iterations
          CFL_condition := CFL_condition
          log_max_h_change := X.logf (X.powf max_volume_change (1 / 3)) }
  | _, _, _ => none

/-- One line of the log printout of `hydro_props_print`, keeping every
value interpolated into the corresponding `message(...)` call. -/
inductive report_entry
  | adiabatic_index (gamma : ℚ)
  | scheme (name : String)
  | kernel_info (kernel : String) (target_neighbours delta_neighbours eta_neighbours : ℚ)
  | cfl (CFL_condition : ℚ)
  | volume_change (max_volume_change log_max_h_change : ℚ)
  | max_iterations (n d : ℤ)
deriving DecidableEq

/-- `hydro_props_print` from hydro_properties.c: the log printout.  The
maximum volume change is recovered as `powf(expf(log_max_h_change), 3)`;
the max-iterations line is emitted only when the value differs from the
default. -/
def hydro_props_print (X : MathExt) (p : hydro_props) : List report_entry :=
  [report_entry.adiabatic_index X.hydro_gamma,
   report_entry.scheme X.SPH_IMPLEMENTATION,
   report_entry.kernel_info X.kernel_name p.target_neighbours
     p.delta_neighbours p.eta_neighbours,
   report_entry.cfl p.CFL_condition,
   report_entry.volume_change (X.powf (X.expf p.log_max_h_change) 3)
     p.log_max_h_change] ++
  (if p.max_smoothing_iterations ≠ hydro_props_default_max_iterations then
    [report_entry.max_iterations p.max_smoothing_iterations
      hydro_props_default_max_iterations]
  else
    [])

/-- A snapshot metadata attribute value: float-valued or string-valued. -/
inductive attr_value
  | f (v : ℚ)
  | s (v : String)
deriving DecidableEq

/-- `hydro_props_print_snapshot` from hydro_properties.c: the snapshot
metadata projection, written attribute by attribute. -/
def hydro_props_print_snapshot (X : MathExt) (p : hydro_props) :
    List (String × attr_value) :=
  [(("Adiabatic index"), attr_value.f X.hydro_gamma),
   (("Scheme"), attr_value.s X.SPH_IMPLEMENTATION),
   (("Kernel function"), attr_value.s X.kernel_name),
   (("Kernel target N_ngb"), attr_value.f p.target_neighbours),
   (("Kernel delta N_ngb"), attr_value.f p.delta_neighbours),
   (("Kernel eta"), attr_value.f p.eta_neighbours),
   (("CFL parameter"), attr_value.f p.CFL_condition),
   (("Volume log(max(delta h))"), attr_value.f p.log_max_h_change),
   (("Volume max change time-step"),
     attr_value.f (X.powf (X.expf p.log_max_h_change) 3)),
   (("Max ghost iterations"),
     attr_value.f (p.max_smoothing_iterations : ℚ))]

/-- The modular wrap of `box_wrap` lands in `[0, d)` for a positive box
dimension. -/
theorem box_wrap_bounds (x d : ℚ) (hd : 0 < d) :
    0 ≤ box_wrap x 0 d ∧ box_wrap x 0 d < d := by
  unfold box_wrap
  have h0 := Int.fract_nonneg ((x - 0) / (d - 0))
  have h1 := Int.fract_lt_one ((x - 0) / (d - 0))
  constructor
  · nlinarith
  · nlinarith

/-- A coordinate already inside `[0, d)` is fixed by `box_wrap`. -/
theorem box_wrap_eq_self (x d : ℚ) (h0 : 0 ≤ x) (h1 : x < d) :
    box_wrap x 0 d = x := by
  have hd : 0 < d := lt_of_le_of_lt h0 h1
  unfold box_wrap
  rw [sub_zero, sub_zero, zero_add,
    Int.fract_eq_self.mpr ⟨by positivity, by rw [div_lt_one hd]; exact h1⟩,
    mul_div_cancel₀ _ (ne_of_gt hd)]

/-- The position converter is the identity on particles whose coordinates
are already inside the box (or whose space is not periodic). -/
theorem convert_part_pos_eq_self (e : engine) (p : part) (xp : xpart)
    (hx0 : e.s.periodic = true → 0 ≤ p.x.c0 ∧ p.x.c0 < e.s.dim.c0)
    (hx1 : e.s.periodic = true → 0 ≤ p.x.c1 ∧ p.x.c1 < e.s.dim.c1)
    (hx2 : e.s.periodic = true → 0 ≤ p.x.c2 ∧ p.x.c2 < e.s.dim.c2) :
    convert_part_pos e p xp = p.x := by
  unfold convert_part_pos
  cases hper : e.s.periodic with
  | false => simp
  | true =>
    obtain ⟨a0, b0⟩ := hx0 hper
    obtain ⟨a1, b1⟩ := hx1 hper
    obtain ⟨a2, b2⟩ := hx2 hper
    simp [box_wrap_eq_self _ _ a0 b0, box_wrap_eq_self _ _ a1 b1,
      box_wrap_eq_self _ _ a2 b2]

/-- With cosmology disabled, `a2_inv = 1`, the current time equal to the
time-bin midpoint (zero elapsed kick interval) and a drift operator that
returns the stored velocity at zero deltas, the velocity converter returns
the stored velocity. -/
theorem convert_part_vel_zero_interval (E : ExternalOps) (e : engine)
    (p : part) (xp : xpart)
    (hc : e.policy_cosmology = false)
    (ha : e.cosmology.a2_inv = 1)
    (hdrift : E.hydro_get_drifted_velocities p xp 0 0 = p.v)
    (hmid : Int.tdiv (E.get_integer_time_begin e.ti_current p.time_bin +
        E.get_integer_time_end e.ti_current p.time_bin) 2 = e.ti_current) :
    convert_part_vel E e p xp = p.v := by
  unfold convert_part_vel
  simp [hc, ha, hmid, hdrift]

/-- The reader aborts with MissingRequiredFieldError exactly when a
required descriptor's external name is absent from the source. -/
theorem io_read_error_iff (uf : unit_conversion → ℚ)
    (source : String → Option (List ℚ)) :
    ∀ (L : List input_field) (p : part),
      io_read uf source L p = .error ("MissingRequiredFieldError") ↔
        ∃ f ∈ L, f.importance = .COMPULSORY ∧ source f.name = none := by
  intro L
  induction L with
  | nil =>
    intro p
    simp [io_read]
  | cons f rest ih =>
    intro p
    cases hs : source f.name with
    | some vals =>
      simp only [io_read, hs]
      rw [ih]
      constructor
      · rintro ⟨g, hg, h1, h2⟩
        exact ⟨g, List.mem_cons_of_mem _ hg, h1, h2⟩
      · rintro ⟨g, hg, h1, h2⟩
        rcases List.mem_cons.mp hg with rfl | hg2
        · rw [hs] at h2
          cases h2
        · exact ⟨g, hg2, h1, h2⟩
    | none =>
      cases hi : f.importance with
      | COMPULSORY =>
        simp only [io_read, hs, hi]
        constructor
        · intro _
          exact ⟨f, List.mem_cons_self _ _, hi, hs⟩
        · intro _
          trivial
      | OPTIONAL =>
        simp only [io_read, hs, hi]
        rw [ih]
        constructor
        · rintro ⟨g, hg, h1, h2⟩
          exact ⟨g, List.mem_cons_of_mem _ hg, h1, h2⟩
        · rintro ⟨g, hg, h1, h2⟩
          rcases List.mem_cons.mp hg with rfl | hg2
          · rw [hi] at h1
            cases h1
          · exact ⟨g, hg2, h1, h2⟩

/-- A particle attribute is preserved by a successful load when every
descriptor of the list either is absent from the source or has a setter
that does not touch that attribute. -/
theorem io_read_preserves {α : Type} (g : part → α) (uf : unit_conversion → ℚ)
    (source : String → Option (List ℚ)) :
    ∀ (L : List input_field) (p q : part),
      io_read uf source L p = .ok q →
      (∀ f ∈ L, source f.name = none ∨ ∀ vals r, g (f.apply vals r) = g r) →
      g q = g p := by
  intro L
  induction L with
  | nil =>
    intro p q hq hall
    simp only [io_read] at hq
    cases hq
    rfl
  | cons f rest ih =>
    intro p q hq hall
    cases hs : source f.name with
    | some vals =>
      simp only [io_read, hs] at hq
      have hg := ih _ q hq (fun f2 hf2 => hall f2 (List.mem_cons_of_mem _ hf2))
      rcases hall f (List.mem_cons_self _ _) with h | h
      · rw [h] at hs
        cases hs
      · rw [hg, h]
    | none =>
      cases hi : f.importance with
      | COMPULSORY =>
        simp only [io_read, hs, hi] at hq
        cases hq
      | OPTIONAL =>
        simp only [io_read, hs, hi] at hq
        exact ih p q hq (fun f2 hf2 => hall f2 (List.mem_cons_of_mem _ hf2))

/-- A concrete external-collaborator record used by witnesses: linear kick
factors, fixed time-bin boundaries 0 and 4, and a drift operator that adds
the two deltas onto the first velocity component — so it returns the stored
velocity exactly at zero deltas. -/
def extC : ExternalOps :=
  { get_integer_time_begin := fun _ _ => 0
    get_integer_time_end := fun _ _ => 4
    cosmology_get_grav_kick_factor := fun _ b en => ((en - b : ℤ) : ℚ)
    cosmology_get_hydro_kick_factor := fun _ b en => 2 * ((en - b : ℤ) : ℚ)
    hydro_get_drifted_velocities := fun p _ dth dtg =>
      ⟨p.v.c0 + dth + dtg, p.v.c1, p.v.c2⟩
    hydro_get_comoving_entropy := fun p => p.primitives.P }

/-- A no-cosmology scale-factor state: `a = 1`, `a2_inv = 1`. -/
def cosmo1 : cosmology := ⟨1, 1⟩

/-- A non-periodic unit box. -/
def space0 : space := ⟨false, ⟨1, 1, 1⟩⟩

/-- A concrete particle: momentum (3,4,0), mass 5, conserved energy 10. -/
def p0 : part :=
  ⟨⟨0, 0, 0⟩, ⟨10, 20, 30⟩, 1, ⟨5, ⟨3, 4, 0⟩, 10⟩, ⟨2, 3⟩, 7, ⟨0, 0, 0⟩, 0,
    none⟩

/-- A concrete extended particle state. -/
def xp0 : xpart := ⟨⟨10, 20, 30⟩⟩

/-- Engine with cosmology disabled, current time 4 (past the bin midpoint 2
of `extC`). -/
def e0 : engine := ⟨space0, false, cosmo1, 4, 1⟩

/-- Engine with cosmology enabled, current time 4. -/
def e1 : engine := ⟨space0, true, cosmo1, 4, 1⟩

/-- Engine with cosmology disabled, current time 2 — exactly the bin
midpoint of `extC`, so the elapsed kick interval is zero. -/
def e2 : engine := ⟨space0, false, cosmo1, 2, 1⟩

/-- A periodic engine with box dimensions (2,3,5). -/
def eP : engine := ⟨⟨true, ⟨2, 3, 5⟩⟩, false, cosmo1, 4, 1⟩

/-- A particle whose stored coordinates lie outside the box. -/
def pOut : part :=
  ⟨⟨7 / 2, -1, 12⟩, ⟨10, 20, 30⟩, 1, ⟨5, ⟨3, 4, 0⟩, 10⟩, ⟨2, 3⟩, 7,
    ⟨0, 0, 0⟩, 0, none⟩

/-- A zero-mass particle. -/
def pz : part :=
  ⟨⟨0, 0, 0⟩, ⟨10, 20, 30⟩, 1, ⟨0, ⟨3, 4, 0⟩, 10⟩, ⟨2, 3⟩, 7, ⟨0, 0, 0⟩, 0,
    none⟩

/-- C1: with cosmology enabled the velocity converter computes, per kind, a
kick-factor delta equal to the kick factor from the time-bin begin boundary
to the current time minus the kick factor from the begin boundary to the
bin midpoint (two provider calls per kind), hands both deltas to the
drift-velocity operator, and multiplies each resulting component by
a2_inv, the square of the inverse scale factor. -/
theorem C1_convert_part_vel_cosmology (E : ExternalOps) (e : engine)
    (p : part) (xp : xpart)
    (hcosmo : e.policy_cosmology = true)
    (ha : e.cosmology.a2_inv = (e.cosmology.a)⁻¹ ^ 2)
    (ti_beg ti_end : ℤ) (dt_kick_grav dt_kick_hydro : ℚ) (r : V3)
    (hbeg : ti_beg = E.get_integer_time_begin e.ti_current p.time_bin)
    (hend : ti_end = E.get_integer_time_end e.ti_current p.time_bin)
    (hgrav : dt_kick_grav =
      E.cosmology_get_grav_kick_factor e.cosmology ti_beg e.ti_current -
        E.cosmology_get_grav_kick_factor e.cosmology ti_beg
          (Int.tdiv (ti_beg + ti_end) 2))
    (hhydro : dt_kick_hydro =
      E.cosmology_get_hydro_kick_factor e.cosmology ti_beg e.ti_current -
        E.cosmology_get_hydro_kick_factor e.cosmology ti_beg
          (Int.tdiv (ti_beg + ti_end) 2))
    (hr : r = E.hydro_get_drifted_velocities p xp dt_kick_hydro dt_kick_grav) :
    convert_part_vel E e p xp =
      ⟨r.c0 * (e.cosmology.a)⁻¹ ^ 2, r.c1 * (e.cosmology.a)⁻¹ ^ 2,
        r.c2 * (e.cosmology.a)⁻¹ ^ 2⟩ := by
  subst hbeg hend hgrav hhydro hr
  unfold convert_part_vel
  simp [hcosmo, ha]

/-- Witness for C1 at a concrete cosmological engine: begin boundary 0, end
boundary 4, midpoint 2, gravity delta 2, hydrodynamic delta 4. -/
theorem C1_witness :
    e1.policy_cosmology = true ∧
      convert_part_vel extC e1 p0 xp0 = ⟨16, 20, 30⟩ := by
  constructor
  · rfl
  · rw [C1_convert_part_vel_cosmology extC e1 p0 xp0 rfl
      (by norm_num [e1, cosmo1]) 0 4 2 4 ⟨16, 20, 30⟩ rfl rfl
      (by norm_num [extC, e1, (by decide : Int.tdiv 4 2 = 2)])
      (by norm_num [extC, e1, (by decide : Int.tdiv 4 2 = 2)])
      (by norm_num [extC, p0])]
    norm_num [e1, cosmo1]

/-- C2 fails as stated: with cosmology disabled, a2_inv = 1, and a drift
operator returning the stored velocity at zero deltas, the converter output
still differs from the stored velocity, because the code hands the nonzero
kick deltas from the bin midpoint to the current time to the drift
operator. -/
theorem C2_counterexample :
    e0.policy_cosmology = false ∧ e0.cosmology.a2_inv = 1 ∧
      extC.hydro_get_drifted_velocities p0 xp0 0 0 = p0.v ∧
      convert_part_vel extC e0 p0 xp0 ≠ p0.v :=
  ⟨rfl, rfl, by norm_num [extC, p0],
    by norm_num [convert_part_vel, extC, e0, p0, cosmo1, space0,
      (by decide : Int.tdiv 4 2 = 2)]⟩

/-- C2 (amended): with cosmology disabled, a2_inv equal to 1, a drift
operator returning the stored velocity at zero deltas, and the current time
equal to the time-bin midpoint (zero elapsed kick interval), the converter
returns the un-drifted stored velocity scaled by 1. -/
theorem C2_convert_part_vel_no_cosmology_undrifted (E : ExternalOps)
    (e : engine) (p : part) (xp : xpart)
    (hc : e.policy_cosmology = false)
    (ha : e.cosmology.a2_inv = 1)
    (hdrift : E.hydro_get_drifted_velocities p xp 0 0 = p.v)
    (hmid : Int.tdiv (E.get_integer_time_begin e.ti_current p.time_bin +
        E.get_integer_time_end e.ti_current p.time_bin) 2 = e.ti_current) :
    convert_part_vel E e p xp = p.v :=
  convert_part_vel_zero_interval E e p xp hc ha hdrift hmid

/-- Witness for the amended C2 at a concrete engine sitting exactly at the
bin midpoint. -/
theorem C2_witness :
    e2.policy_cosmology = false ∧ e2.cosmology.a2_inv = 1 ∧
      convert_part_vel extC e2 p0 xp0 = p0.v :=
  ⟨rfl, rfl,
    C2_convert_part_vel_no_cosmology_undrifted extC e2 p0 xp0 rfl rfl
      (by norm_num [extC, p0]) (by decide)⟩

/-- C3: in mode B the total-energy converter returns
internal energy + 0.5·|momentum|²/mass; at momentum (3,4,0), mass 5,
internal energy 10 it returns 12.5. -/
theorem C3_convert_Etot_modeB :
    (∀ (e : engine) (p : part) (xp : xpart),
      convert_Etot false e p xp =
        p.conserved.energy +
          1 / 2 *
            (p.conserved.momentum.c0 * p.conserved.momentum.c0 +
              p.conserved.momentum.c1 * p.conserved.momentum.c1 +
              p.conserved.momentum.c2 * p.conserved.momentum.c2) /
            p.conserved.mass) ∧
      convert_Etot false e0 p0 xp0 = 25 / 2 := by
  constructor
  · intro e p xp
    rfl
  · norm_num [convert_Etot, p0]

/-- C9: the mode-B total-energy converter has no zero-mass guard: it is a
total function and for a zero-mass particle the division by the conserved
mass is still performed (rendered here by exact-arithmetic division by
zero), with no error path in the converter. -/
theorem C9_convert_Etot_zero_mass (e : engine) (p : part) (xp : xpart)
    (hm : p.conserved.mass = 0) :
    convert_Etot false e p xp =
      p.conserved.energy +
        1 / 2 *
          (p.conserved.momentum.c0 * p.conserved.momentum.c0 +
            p.conserved.momentum.c1 * p.conserved.momentum.c1 +
            p.conserved.momentum.c2 * p.conserved.momentum.c2) / 0 := by
  simp [convert_Etot, hm]

/-- Witness for C9 at a concrete zero-mass particle. -/
theorem C9_witness :
    pz.conserved.mass = 0 ∧
      convert_Etot false e0 pz xp0 =
        pz.conserved.energy +
          1 / 2 *
            (pz.conserved.momentum.c0 * pz.conserved.momentum.c0 +
              pz.conserved.momentum.c1 * pz.conserved.momentum.c1 +
              pz.conserved.momentum.c2 * pz.conserved.momentum.c2) / 0 :=
  ⟨rfl, C9_convert_Etot_zero_mass e0 pz xp0 rfl⟩

/-- C4: when the space is periodic (with positive box dimensions) every
component of the position converter output lies in [0, dim); when it is not
periodic the output equals the raw stored position. -/
theorem C4_convert_part_pos (e : engine) (p : part) (xp : xpart) :
    (e.s.periodic = true → 0 < e.s.dim.c0 → 0 < e.s.dim.c1 →
      0 < e.s.dim.c2 →
      (0 ≤ (convert_part_pos e p xp).c0 ∧
        (convert_part_pos e p xp).c0 < e.s.dim.c0) ∧
      (0 ≤ (convert_part_pos e p xp).c1 ∧
        (convert_part_pos e p xp).c1 < e.s.dim.c1) ∧
      (0 ≤ (convert_part_pos e p xp).c2 ∧
        (convert_part_pos e p xp).c2 < e.s.dim.c2)) ∧
    (e.s.periodic = false → convert_part_pos e p xp = p.x) := by
  constructor
  · intro hper h0 h1 h2
    simp only [convert_part_pos, hper, if_true]
    exact ⟨box_wrap_bounds _ _ h0, box_wrap_bounds _ _ h1,
      box_wrap_bounds _ _ h2⟩
  · intro hper
    simp [convert_part_pos, hper]

/-- Witness for C4: a periodic box (2,3,5) with out-of-box coordinates, and
the non-periodic pass-through. -/
theorem C4_witness :
    ((0 ≤ (convert_part_pos eP pOut xp0).c0 ∧
        (convert_part_pos eP pOut xp0).c0 < eP.s.dim.c0) ∧
      (0 ≤ (convert_part_pos eP pOut xp0).c1 ∧
        (convert_part_pos eP pOut xp0).c1 < eP.s.dim.c1) ∧
      (0 ≤ (convert_part_pos eP pOut xp0).c2 ∧
        (convert_part_pos eP pOut xp0).c2 < eP.s.dim.c2)) ∧
      convert_part_pos e0 p0 xp0 = p0.x :=
  ⟨(C4_convert_part_pos eP pOut xp0).1 rfl (by norm_num [eP])
      (by norm_num [eP]) (by norm_num [eP]),
    (C4_convert_part_pos e0 p0 xp0).2 rfl⟩

/-- C10: with cosmology disabled both kick deltas are identical and equal
(ti_current − (ti_beg + ti_end)/2)·time_base, the midpoint computed by
truncating integer division; the drift operator receives that common delta
for both kinds and each component is scaled by a2_inv. -/
theorem C10_convert_part_vel_no_cosmology (E : ExternalOps) (e : engine)
    (p : part) (xp : xpart)
    (hc : e.policy_cosmology = false)
    (ti_beg ti_end : ℤ) (dt : ℚ) (r : V3)
    (hbeg : ti_beg = E.get_integer_time_begin e.ti_current p.time_bin)
    (hend : ti_end = E.get_integer_time_end e.ti_current p.time_bin)
    (hdt : dt =
      ((e.ti_current - Int.tdiv (ti_beg + ti_end) 2 : ℤ) : ℚ) * e.time_base)
    (hr : r = E.hydro_get_drifted_velocities p xp dt dt) :
    convert_part_vel E e p xp =
      ⟨r.c0 * e.cosmology.a2_inv, r.c1 * e.cosmology.a2_inv,
        r.c2 * e.cosmology.a2_inv⟩ := by
  subst hbeg hend hdt hr
  unfold convert_part_vel
  simp [hc]

/-- Witness for C10: common delta (4 − 2)·1 = 2 for both kinds. -/
theorem C10_witness :
    e0.policy_cosmology = false ∧
      convert_part_vel extC e0 p0 xp0 = ⟨14, 20, 30⟩ := by
  constructor
  · rfl
  · rw [C10_convert_part_vel_no_cosmology extC e0 p0 xp0 rfl 0 4 2
      ⟨14, 20, 30⟩ rfl rfl
      (by norm_num [e0, (by decide : Int.tdiv 4 2 = 2)])
      (by norm_num [extC, p0])]
    norm_num [e0, cosmo1]

/-- C5: the read registry lists exactly Coordinates, Velocities, Masses,
SmoothingLength, InternalEnergy, ParticleIDs as required and
Accelerations, Density as optional; for any source, loading fails with
MissingRequiredFieldError iff some required field's external name is
absent; and an absent optional field leaves its destination attribute
(Density → primitives.rho, Accelerations → a_hydro) at its prior value. -/
theorem C5_read_registry :
    hydro_read_particles.map (fun f => (f.name, f.importance)) =
      [(("Coordinates"), io_importance.COMPULSORY),
       (("Velocities"), io_importance.COMPULSORY),
       (("Masses"), io_importance.COMPULSORY),
       (("SmoothingLength"), io_importance.COMPULSORY),
       (("InternalEnergy"), io_importance.COMPULSORY),
       (("ParticleIDs"), io_importance.COMPULSORY),
       (("Accelerations"), io_importance.OPTIONAL),
       (("Density"), io_importance.OPTIONAL)] ∧
    (∀ (uf : unit_conversion → ℚ) (source : String → Option (List ℚ))
      (p : part),
      io_read uf source hydro_read_particles p =
          .error ("MissingRequiredFieldError") ↔
        ∃ f ∈ hydro_read_particles,
          f.importance = .COMPULSORY ∧ source f.name = none) ∧
    (∀ (uf : unit_conversion → ℚ) (source : String → Option (List ℚ))
      (p q : part),
      io_read uf source hydro_read_particles p = .ok q →
      (source ("Density") = none → q.primitives.rho = p.primitives.rho) ∧
      (source ("Accelerations") = none → q.a_hydro = p.a_hydro)) := by
  refine ⟨rfl,
    fun uf source p => io_read_error_iff uf source hydro_read_particles p,
    ?_⟩
  intro uf source p q hok
  constructor
  · intro hd
    refine io_read_preserves (fun r => r.primitives.rho) uf source
      hydro_read_particles p q hok ?_
    intro f hf
    simp only [hydro_read_particles, List.mem_cons, List.not_mem_nil,
      or_false] at hf
    rcases hf with rfl | rfl | rfl | rfl | rfl | rfl | rfl | rfl
    · exact Or.inr fun vals r => rfl
    · exact Or.inr fun vals r => rfl
    · exact Or.inr fun vals r => rfl
    · exact Or.inr fun vals r => rfl
    · exact Or.inr fun vals r => rfl
    · exact Or.inr fun vals r => rfl
    · exact Or.inr fun vals r => rfl
    · exact Or.inl hd
  · intro hacc
    refine io_read_preserves (fun r => r.a_hydro) uf source
      hydro_read_particles p q hok ?_
    intro f hf
    simp only [hydro_read_particles, List.mem_cons, List.not_mem_nil,
      or_false] at hf
    rcases hf with rfl | rfl | rfl | rfl | rfl | rfl | rfl | rfl
    · exact Or.inr fun vals r => rfl
    · exact Or.inr fun vals r => rfl
    · exact Or.inr fun vals r => rfl
    · exact Or.inr fun vals r => rfl
    · exact Or.inr fun vals r => rfl
    · exact Or.inr fun vals r => rfl
    · exact Or.inl hacc
    · exact Or.inr fun vals r => rfl

/-- The trivial unit-conversion-factor resolver. -/
def ufOne : unit_conversion → ℚ := fun _ => 1

/-- A source providing exactly the six required fields. -/
def srcReq : String → Option (List ℚ) := fun n =>
  if n = ("Coordinates") then some [1, 2, 3]
  else if n = ("Velocities") then some [4, 5, 6]
  else if n = ("Masses") then some [7]
  else if n = ("SmoothingLength") then some [8]
  else if n = ("InternalEnergy") then some [9]
  else if n = ("ParticleIDs") then some [11]
  else none

/-- The same source with the required Masses field removed. -/
def srcNoMass : String → Option (List ℚ) := fun n =>
  if n = ("Masses") then none else srcReq n

/-- The particle produced by loading `srcReq` over `p0` with unit factors
1: required attributes overwritten, everything else at its prior value. -/
def pReq : part :=
  ⟨⟨1, 2, 3⟩, ⟨4, 5, 6⟩, 8, ⟨7, ⟨3, 4, 0⟩, 9⟩, ⟨2, 3⟩, 11, ⟨0, 0, 0⟩, 0,
    none⟩

/-- Witness for C5: loading without Masses fails, loading the required-only
source succeeds and leaves rho and a_hydro at their prior values. -/
theorem C5_witness :
    io_read ufOne srcNoMass hydro_read_particles p0 =
      .error ("MissingRequiredFieldError") ∧
    io_read ufOne srcReq hydro_read_particles p0 = .ok pReq ∧
    pReq.primitives.rho = p0.primitives.rho ∧
    pReq.a_hydro = p0.a_hydro := by
  have l1 : srcReq ("Coordinates") = some [1, 2, 3] := rfl
  have l2 : srcReq ("Velocities") = some [4, 5, 6] := rfl
  have l3 : srcReq ("Masses") = some [7] := rfl
  have l4 : srcReq ("SmoothingLength") = some [8] := rfl
  have l5 : srcReq ("InternalEnergy") = some [9] := rfl
  have l6 : srcReq ("ParticleIDs") = some [11] := rfl
  have l7 : srcReq ("Accelerations") = none := rfl
  have l8 : srcReq ("Density") = none := rfl
  have hok : io_read ufOne srcReq hydro_read_particles p0 = .ok pReq := by
    simp only [io_read, hydro_read_particles, io_make_input_field, l1, l2,
      l3, l4, l5, l6, l7, l8, ufOne]
    norm_num [V3.setFrom, scalarFrom, pReq, p0]
  have hpres := C5_read_registry.2.2 ufOne srcReq p0 pReq hok
  refine ⟨(C5_read_registry.2.1 ufOne srcNoMass p0).mpr
      ⟨io_make_input_field ("Masses") .FLOAT 1 .COMPULSORY .UNIT_CONV_MASS
          (fun vals p =>
            { p with conserved :=
                { p.conserved with
                    mass := scalarFrom vals p.conserved.mass } }),
        by simp [hydro_read_particles],
        rfl, (rfl : srcNoMass ("Masses") = none)⟩,
    hok, hpres.1 l8, hpres.2 l7⟩

/-- C6: with the three required parameters present, the derivation sets
target_neighbours = (4/3)·π·kernel_gamma3·eta³ and log_max_h_change =
log(max_volume_change^(1/3)), the optional parameters defaulting to a
maximum volume change of 2 and 30 iterations when absent; in particular
with no optional keys the result has max_smoothing_iterations = 30 and
log_max_h_change = log(2^(1/3)). -/
theorem C6_hydro_props_init (X : MathExt) (params : swift_params)
    (eta dn cfl : ℚ)
    (he : params.getF ("SPH:resolution_eta") = some eta)
    (hd : params.getF ("SPH:delta_neighbours") = some dn)
    (hc : params.getF ("SPH:CFL_condition") = some cfl) :
    hydro_props_init X params = some
      { eta_neighbours := eta
        target_neighbours :=
          4 / 3 * X.M_PI * X.kernel_gamma3 * (eta * eta * eta)
        delta_neighbours := dn
        max_smoothing_iterations :=
          (params.getI ("SPH:max_ghost_iterations")).getD 30
        CFL_condition := cfl
        log_max_h_change :=
          X.logf
            (X.powf ((params.getF ("SPH:max_volume_change")).getD 2)
              (1 / 3)) } ∧
    (params.getI ("SPH:max_ghost_iterations") = none →
      params.getF ("SPH:max_volume_change") = none →
      ∃ props, hydro_props_init X params = some props ∧
        props.max_smoothing_iterations = 30 ∧
        props.log_max_h_change = X.logf (X.powf 2 (1 / 3))) := by
  have hmain : hydro_props_init X params = some
      { eta_neighbours := eta
        target_neighbours :=
          4 / 3 * X.M_PI * X.kernel_gamma3 * (eta * eta * eta)
        delta_neighbours := dn
        max_smoothing_iterations :=
          (params.getI ("SPH:max_ghost_iterations")).getD 30
        CFL_condition := cfl
        log_max_h_change :=
          X.logf
            (X.powf ((params.getF ("SPH:max_volume_change")).getD 2)
              (1 / 3)) } := by
    simp only [hydro_props_init, parser_get_param_float, he, hd, hc,
      parser_get_opt_param_float, parser_get_opt_param_int,
      hydro_props_default_max_iterations, hydro_props_default_volume_change]
    have hring : (4 : ℚ) * X.M_PI * X.kernel_gamma3 * (eta * eta * eta) / 3 =
        4 / 3 * X.M_PI * X.kernel_gamma3 * (eta * eta * eta) := by
      ring
    rw [hring]
  refine ⟨hmain, ?_⟩
  intro h1 h2
  exact ⟨_, hmain, by simp [h1], by simp [h2]⟩

/-- A concrete external-constant record for the property witnesses. -/
def X0 : MathExt :=
  ⟨355 / 113, 2, fun x => x + 100, fun x => x - 100, fun x y => x * y,
    5 / 3, ("Gizmo MFV"), ("Cubic spline")⟩

/-- A concrete parameter file holding exactly the three required keys. -/
def params0 : swift_params :=
  ⟨fun n =>
    if n = ("SPH:resolution_eta") then some (6 / 5)
    else if n = ("SPH:delta_neighbours") then some (1 / 10)
    else if n = ("SPH:CFL_condition") then some (3 / 10)
    else none,
   fun _ => none⟩

/-- Witness for C6 at eta = 1.2, delta_neighbours = 0.1, CFL = 0.3 with no
optional parameters. -/
theorem C6_witness :
    params0.getF ("SPH:resolution_eta") = some (6 / 5) ∧
    ∃ props, hydro_props_init X0 params0 = some props ∧
      props.max_smoothing_iterations = 30 ∧
      props.log_max_h_change = X0.logf (X0.powf 2 (1 / 3)) := by
  refine ⟨by simp [params0], ?_⟩
  exact (C6_hydro_props_init X0 params0 (6 / 5) (1 / 10) (3 / 10)
    (by simp [params0]) (by simp [params0]) (by simp [params0])).2 rfl
    (by simp [params0])

/-- Bool test for the max-iterations log line. -/
def report_entry.isMaxIter : report_entry → Bool
  | .max_iterations _ _ => true
  | _ => false

/-- A configuration whose iteration cap equals the default 30. -/
def props30 : hydro_props := ⟨6 / 5, 2, 1 / 10, 30, 3 / 10, 7⟩

/-- A configuration whose iteration cap differs from the default. -/
def props31 : hydro_props := ⟨6 / 5, 2, 1 / 10, 31, 3 / 10, 7⟩

/-- C8 fails as stated: when max_smoothing_iterations equals the default
30, the log printout contains no line reproducing it, so the log path does
not reproduce every derived value of the structure. -/
theorem C8_counterexample :
    props30.max_smoothing_iterations = 30 ∧
      (hydro_props_print X0 props30).all (fun en => !en.isMaxIter) = true := by
  constructor
  · rfl
  · simp [hydro_props_print, X0, props30, report_entry.isMaxIter,
      hydro_props_default_max_iterations]

/-- C8 (amended): the snapshot metadata projection reproduces every derived
value of the structure including max_smoothing_iterations; the log printout
reproduces eta, target_neighbours, delta_neighbours, CFL_condition,
log_max_h_change and the recovered maximum volume change, but reproduces
max_smoothing_iterations exactly when it differs from the default 30. -/
theorem C8_reporting (X : MathExt) (p : hydro_props) :
    ((("Kernel target N_ngb"), attr_value.f p.target_neighbours) ∈
        hydro_props_print_snapshot X p ∧
      (("Kernel delta N_ngb"), attr_value.f p.delta_neighbours) ∈
        hydro_props_print_snapshot X p ∧
      (("Kernel eta"), attr_value.f p.eta_neighbours) ∈
        hydro_props_print_snapshot X p ∧
      (("CFL parameter"), attr_value.f p.CFL_condition) ∈
        hydro_props_print_snapshot X p ∧
      (("Volume log(max(delta h))"), attr_value.f p.log_max_h_change) ∈
        hydro_props_print_snapshot X p ∧
      (("Volume max change time-step"),
          attr_value.f (X.powf (X.expf p.log_max_h_change) 3)) ∈
        hydro_props_print_snapshot X p ∧
      (("Max ghost iterations"),
          attr_value.f (p.max_smoothing_iterations : ℚ)) ∈
        hydro_props_print_snapshot X p) ∧
    (report_entry.kernel_info X.kernel_name p.target_neighbours
        p.delta_neighbours p.eta_neighbours ∈ hydro_props_print X p ∧
      report_entry.cfl p.CFL_condition ∈ hydro_props_print X p ∧
      report_entry.volume_change (X.powf (X.expf p.log_max_h_change) 3)
        p.log_max_h_change ∈ hydro_props_print X p ∧
      (p.max_smoothing_iterations ≠ hydro_props_default_max_iterations ↔
        report_entry.max_iterations p.max_smoothing_iterations
          hydro_props_default_max_iterations ∈ hydro_props_print X p)) := by
  refine ⟨⟨?_, ?_, ?_, ?_, ?_, ?_, ?_⟩, ?_, ?_, ?_, ?_⟩
  · simp [hydro_props_print_snapshot]
  · simp [hydro_props_print_snapshot]
  · simp [hydro_props_print_snapshot]
  · simp [hydro_props_print_snapshot]
  · simp [hydro_props_print_snapshot]
  · simp [hydro_props_print_snapshot]
  · simp [hydro_props_print_snapshot]
  · simp [hydro_props_print]
  · simp [hydro_props_print]
  · simp [hydro_props_print]
  · constructor
    · intro hne
      simp [hydro_props_print, hne]
    · intro hmem
      by_contra heq
      simp [hydro_props_print, heq] at hmem

/-- Witness for the amended C8 at a configuration differing from the
default iteration cap. -/
theorem C8_witness :
    report_entry.cfl props31.CFL_condition ∈ hydro_props_print X0 props31 ∧
      report_entry.max_iterations props31.max_smoothing_iterations
        hydro_props_default_max_iterations ∈ hydro_props_print X0 props31 :=
  ⟨(C8_reporting X0 props31).2.2.1,
    ((C8_reporting X0 props31).2.2.2.2).mp (by decide)⟩

/-- A periodic unit box with cosmology disabled, current time at the bin
midpoint of `extC`. -/
def eCX : engine := ⟨⟨true, ⟨1, 1, 1⟩⟩, false, cosmo1, 2, 1⟩

/-- A particle whose first stored coordinate −1/2 lies outside the unit
box. -/
def pCX : part :=
  ⟨⟨-(1 / 2), 0, 0⟩, ⟨10, 20, 30⟩, 1, ⟨5, ⟨3, 4, 0⟩, 10⟩, ⟨2, 3⟩, 7,
    ⟨0, 0, 0⟩, 0, none⟩

/-- A cosmological engine with scale factor 1/2 (a2_inv = 4), current time
at the bin midpoint of `extC` (zero elapsed kick interval). -/
def eCV : engine := ⟨space0, true, ⟨1 / 2, 4⟩, 2, 1⟩

/-- C7 fails as stated: (a) with a periodic box and a stored coordinate
outside it, the read-back coordinate is the wrapped value 1/2, not the
stored −1/2; (b) with cosmology enabled (a2_inv = 4) and a zero elapsed
kick interval, the read-back velocity is the a2_inv-scaled value 40, not
the stored 10. -/
theorem C7_counterexample :
    ((io_read ufOne
          (io_write (hydro_write_particles false) extC ufOne eCX pCX xp0)
          hydro_read_particles p0).toOption.map (fun q => q.x.c0) =
        some (1 / 2) ∧ pCX.x.c0 = -(1 / 2)) ∧
    ((io_read ufOne
          (io_write (hydro_write_particles false) extC ufOne eCV p0 xp0)
          hydro_read_particles p0).toOption.map (fun q => q.v.c0) =
        some 40 ∧ p0.v.c0 = 10) := by
  have hwp : convert_part_pos eCX pCX xp0 = ⟨1 / 2, 0, 0⟩ := by
    norm_num [convert_part_pos, eCX, pCX, box_wrap, Int.fract]
  have hwv : convert_part_vel extC eCV p0 xp0 = ⟨40, 80, 120⟩ := by
    norm_num [convert_part_vel, extC, eCV, p0,
      (by decide : Int.tdiv 4 2 = 2)]
  constructor
  · have w1 : io_write (hydro_write_particles false) extC ufOne eCX pCX xp0
        ("Coordinates") =
        some [(convert_part_pos eCX pCX xp0).c0 * ufOne .UNIT_CONV_LENGTH,
          (convert_part_pos eCX pCX xp0).c1 * ufOne .UNIT_CONV_LENGTH,
          (convert_part_pos eCX pCX xp0).c2 * ufOne .UNIT_CONV_LENGTH] := rfl
    have w2 : io_write (hydro_write_particles false) extC ufOne eCX pCX xp0
        ("Velocities") =
        some [(convert_part_vel extC eCX pCX xp0).c0 * ufOne .UNIT_CONV_SPEED,
          (convert_part_vel extC eCX pCX xp0).c1 * ufOne .UNIT_CONV_SPEED,
          (convert_part_vel extC eCX pCX xp0).c2 *
            ufOne .UNIT_CONV_SPEED] := rfl
    have w3 : io_write (hydro_write_particles false) extC ufOne eCX pCX xp0
        ("Masses") = some [pCX.conserved.mass * ufOne .UNIT_CONV_MASS] := rfl
    have w4 : io_write (hydro_write_particles false) extC ufOne eCX pCX xp0
        ("SmoothingLength") =
        some [pCX.h * ufOne .UNIT_CONV_LENGTH] := rfl
    have w5 : io_write (hydro_write_particles false) extC ufOne eCX pCX xp0
        ("InternalEnergy") =
        some [pCX.conserved.energy *
          ufOne .UNIT_CONV_ENERGY_PER_UNIT_MASS] := rfl
    have w6 : io_write (hydro_write_particles false) extC ufOne eCX pCX xp0
        ("ParticleIDs") = some [pCX.id * ufOne .UNIT_CONV_NO_UNITS] := rfl
    have w7 : io_write (hydro_write_particles false) extC ufOne eCX pCX xp0
        ("Accelerations") = none := rfl
    have w8 : io_write (hydro_write_particles false) extC ufOne eCX pCX xp0
        ("Density") =
        some [pCX.primitives.rho * ufOne .UNIT_CONV_DENSITY] := rfl
    rw [hwp] at w1
    refine ⟨?_, rfl⟩
    simp only [io_read, hydro_read_particles, io_make_input_field, w1, w2,
      w3, w4, w5, w6, w7, w8, ufOne]
    norm_num [V3.setFrom, scalarFrom]
    exact ⟨_, rfl, rfl⟩
  · have w1 : io_write (hydro_write_particles false) extC ufOne eCV p0 xp0
        ("Coordinates") =
        some [(convert_part_pos eCV p0 xp0).c0 * ufOne .UNIT_CONV_LENGTH,
          (convert_part_pos eCV p0 xp0).c1 * ufOne .UNIT_CONV_LENGTH,
          (convert_part_pos eCV p0 xp0).c2 * ufOne .UNIT_CONV_LENGTH] := rfl
    have w2 : io_write (hydro_write_particles false) extC ufOne eCV p0 xp0
        ("Velocities") =
        some [(convert_part_vel extC eCV p0 xp0).c0 * ufOne .UNIT_CONV_SPEED,
          (convert_part_vel extC eCV p0 xp0).c1 * ufOne .UNIT_CONV_SPEED,
          (convert_part_vel extC eCV p0 xp0).c2 *
            ufOne .UNIT_CONV_SPEED] := rfl
    have w3 : io_write (hydro_write_particles false) extC ufOne eCV p0 xp0
        ("Masses") = some [p0.conserved.mass * ufOne .UNIT_CONV_MASS] := rfl
    have w4 : io_write (hydro_write_particles false) extC ufOne eCV p0 xp0
        ("SmoothingLength") =
        some [p0.h * ufOne .UNIT_CONV_LENGTH] := rfl
    have w5 : io_write (hydro_write_particles false) extC ufOne eCV p0 xp0
        ("InternalEnergy") =
        some [p0.conserved.energy *
          ufOne .UNIT_CONV_ENERGY_PER_UNIT_MASS] := rfl
    have w6 : io_write (hydro_write_particles false) extC ufOne eCV p0 xp0
        ("ParticleIDs") = some [p0.id * ufOne .UNIT_CONV_NO_UNITS] := rfl
    have w7 : io_write (hydro_write_particles false) extC ufOne eCV p0 xp0
        ("Accelerations") = none := rfl
    have w8 : io_write (hydro_write_particles false) extC ufOne eCV p0 xp0
        ("Density") =
        some [p0.primitives.rho * ufOne .UNIT_CONV_DENSITY] := rfl
    rw [hwv] at w2
    refine ⟨?_, rfl⟩
    simp only [io_read, hydro_read_particles, io_make_input_field, w1, w2,
      w3, w4, w5, w6, w7, w8, ufOne]
    norm_num [V3.setFrom, scalarFrom]
    exact ⟨_, rfl, rfl⟩

/-- C7 (amended): writing a particle with the output schema then reading
the result back with the input schema reproduces Coordinates (when each
stored coordinate already lies inside the box, or the space is not
periodic), Velocities (when cosmology is disabled and the elapsed kick
interval is zero), Masses, SmoothingLength, InternalEnergy and
ParticleIDs; the unit-conversion factors cancel exactly in exact
arithmetic. -/
theorem C7_round_trip (gte : Bool) (E : ExternalOps)
    (uf : unit_conversion → ℚ) (e : engine) (p p2 : part) (xp : xpart)
    (huf : ∀ u, uf u ≠ 0)
    (hc : e.policy_cosmology = false)
    (ha : e.cosmology.a2_inv = 1)
    (hdrift : E.hydro_get_drifted_velocities p xp 0 0 = p.v)
    (hmid : Int.tdiv (E.get_integer_time_begin e.ti_current p.time_bin +
        E.get_integer_time_end e.ti_current p.time_bin) 2 = e.ti_current)
    (hx0 : e.s.periodic = true → 0 ≤ p.x.c0 ∧ p.x.c0 < e.s.dim.c0)
    (hx1 : e.s.periodic = true → 0 ≤ p.x.c1 ∧ p.x.c1 < e.s.dim.c1)
    (hx2 : e.s.periodic = true → 0 ≤ p.x.c2 ∧ p.x.c2 < e.s.dim.c2) :
    ∃ q, io_read uf (io_write (hydro_write_particles gte) E uf e p xp)
        hydro_read_particles p2 = .ok q ∧
      q.x = p.x ∧ q.v = p.v ∧ q.conserved.mass = p.conserved.mass ∧
      q.h = p.h ∧ q.conserved.energy = p.conserved.energy ∧
      q.id = p.id := by
  have hv : convert_part_vel E e p xp = p.v :=
    convert_part_vel_zero_interval E e p xp hc ha hdrift hmid
  have hp : convert_part_pos e p xp = p.x :=
    convert_part_pos_eq_self e p xp hx0 hx1 hx2
  have can : ∀ (a : ℚ) (u : unit_conversion), a * uf u / uf u = a :=
    fun a u => mul_div_cancel_right₀ a (huf u)
  have w1 : io_write (hydro_write_particles gte) E uf e p xp
      ("Coordinates") =
      some [(convert_part_pos e p xp).c0 * uf .UNIT_CONV_LENGTH,
        (convert_part_pos e p xp).c1 * uf .UNIT_CONV_LENGTH,
        (convert_part_pos e p xp).c2 * uf .UNIT_CONV_LENGTH] := rfl
  have w2 : io_write (hydro_write_particles gte) E uf e p xp
      ("Velocities") =
      some [(convert_part_vel E e p xp).c0 * uf .UNIT_CONV_SPEED,
        (convert_part_vel E e p xp).c1 * uf .UNIT_CONV_SPEED,
        (convert_part_vel E e p xp).c2 * uf .UNIT_CONV_SPEED] := rfl
  have w3 : io_write (hydro_write_particles gte) E uf e p xp ("Masses") =
      some [p.conserved.mass * uf .UNIT_CONV_MASS] := rfl
  have w4 : io_write (hydro_write_particles gte) E uf e p xp
      ("SmoothingLength") = some [p.h * uf .UNIT_CONV_LENGTH] := rfl
  have w5 : io_write (hydro_write_particles gte) E uf e p xp
      ("InternalEnergy") =
      some [p.conserved.energy * uf .UNIT_CONV_ENERGY_PER_UNIT_MASS] := rfl
  have w6 : io_write (hydro_write_particles gte) E uf e p xp
      ("ParticleIDs") = some [p.id * uf .UNIT_CONV_NO_UNITS] := rfl
  have w7 : io_write (hydro_write_particles gte) E uf e p xp
      ("Accelerations") = none := rfl
  have w8 : io_write (hydro_write_particles gte) E uf e p xp ("Density") =
      some [p.primitives.rho * uf .UNIT_CONV_DENSITY] := rfl
  rw [hp] at w1
  rw [hv] at w2
  refine ⟨{ p2 with
      x := p.x
      v := p.v
      h := p.h
      conserved := { p2.conserved with
        mass := p.conserved.mass
        energy := p.conserved.energy }
      primitives := { p2.primitives with rho := p.primitives.rho }
      id := p.id }, ?_, rfl, rfl, rfl, rfl, rfl, rfl⟩
  simp only [io_read, hydro_read_particles, io_make_input_field, w1, w2,
    w3, w4, w5, w6, w7, w8, List.map_cons, List.map_nil, can]
  simp [V3.setFrom, scalarFrom]

/-- Witness for the amended C7: a concrete non-periodic engine sitting at
the bin midpoint; the six attributes read back equal the stored ones. -/
theorem C7_witness :
    (io_read ufOne
        (io_write (hydro_write_particles false) extC ufOne e2 p0 xp0)
        hydro_read_particles pz).toOption.map
        (fun q => (q.x, q.v, q.conserved.mass, q.h, q.conserved.energy,
          q.id)) =
      some (p0.x, p0.v, p0.conserved.mass, p0.h, p0.conserved.energy,
        p0.id) := by
  obtain ⟨q, hq, h1, h2, h3, h4, h5, h6⟩ :=
    C7_round_trip false extC ufOne e2 p0 pz xp0 (fun u => one_ne_zero)
      rfl rfl (by norm_num [extC, p0]) (by decide)
      (fun hcontra => by simp [e2, space0] at hcontra)
      (fun hcontra => by simp [e2, space0] at hcontra)
      (fun hcontra => by simp [e2, space0] at hcontra)
  rw [hq]
  simp [Except.toOption, h1, h2, h3, h4, h5, h6]

end SwiftSim
